import Mathlib

/-!
Shallow embedding of the pricing engine (`src/utils/index.ts`) and the cart
state controller (`stores/cartStore.ts`) of the freedompress-shop module.

Numbers are modelled as exact rationals.  The pricing helpers go through the
`currency.js` library (version 2, precision 2): a value is parsed to an
integer number of cents by `Math.round((value * 100).toFixed(4))`, and
`multiply` multiplies the integer cent count by the factor and re-parses.
Both `Math.round` and `toFixed` round halves toward positive infinity, which
is `⌊x + 1/2⌋`.
-/

namespace Shop

/-- JavaScript `Math.round`: round to the nearest integer, halves toward
positive infinity. -/
def jsRound (x : ℚ) : ℤ := ⌊x + 1/2⌋

/-- JavaScript `(x).toFixed(4)` read back as a number: round to 4 decimal
places, halves toward positive infinity. -/
def toFixed4 (x : ℚ) : ℚ := (jsRound (x * 10000) : ℚ) / 10000

/-- The `intValue` of `currency(v)` at precision 2: cents, computed by
`Math.round((v * 100).toFixed(4))`. -/
def curInt (v : ℚ) : ℤ := jsRound (toFixed4 (v * 100))

/-- The `value` of `currency(v)` at precision 2. -/
def curValue (v : ℚ) : ℚ := (curInt v : ℚ) / 100

/-- Line item shape taken by `calculateOrderTotals`: `{ price, quantity }`.
Quantities are the positive integers of the data model. -/
structure LineItem where
  price : ℚ
  quantity : ℕ
deriving DecidableEq

/-- The raw (unrounded) subtotal accumulated by
`items.reduce((sum, item) => sum + item.price * item.quantity, 0)`. -/
def subtotalRaw (items : List LineItem) : ℚ :=
  items.foldl (fun sum it => sum + it.price * (it.quantity : ℚ)) 0

/-- `calculateTax` from `src/utils/index.ts`:
`currency(subtotal).multiply(taxRate).value`.  Per currency.js, this parses
the subtotal to cents, multiplies the cent count by the rate, divides by
10^2 and re-parses, so it is `curValue ((curInt subtotal) * taxRate / 100)`. -/
def calculateTax (subtotal taxRate : ℚ) : ℚ :=
  curValue ((curInt subtotal : ℚ) * taxRate / 100)

/-- `calculateShipping` from `src/utils/index.ts`: free exactly when a
strictly positive threshold is configured and the subtotal reaches it. -/
def calculateShipping (subtotal shippingRate freeShippingThreshold : ℚ) : ℚ :=
  if freeShippingThreshold > 0 ∧ subtotal ≥ freeShippingThreshold then 0
  else shippingRate

/-- Result record of `calculateOrderTotals`. -/
structure OrderTotals where
  subtotal : ℚ
  tax : ℚ
  shipping : ℚ
  discount : ℚ
  total : ℚ
deriving DecidableEq

/-- `calculateOrderTotals` from `src/utils/index.ts`.  Note that the source
calls `calculateShipping(subtotal, shippingRate)` with no third argument, so
the `freeShippingThreshold` parameter takes its default value `0`. -/
def calculateOrderTotals (items : List LineItem)
    (taxRate shippingRate discountAmount : ℚ) : OrderTotals :=
  { subtotal := curValue (subtotalRaw items)
    tax := curValue (calculateTax (subtotalRaw items) taxRate)
    shipping := curValue (calculateShipping (subtotalRaw items) shippingRate 0)
    discount := curValue (min discountAmount (subtotalRaw items))
    total := curValue (subtotalRaw items + calculateTax (subtotalRaw items) taxRate
      + calculateShipping (subtotalRaw items) shippingRate 0
      - min discountAmount (subtotalRaw items)) }

/-- Modelled from the spec: the tax computation §4.1 describes, namely the
exact (unrounded) subtotal multiplied by the tax rate, rounded to currency
precision only once, at the point of producing the final totals. -/
def specTaxRoundedOnce (items : List LineItem) (taxRate : ℚ) : ℚ :=
  curValue (subtotalRaw items * taxRate)

/-- A rational that is a whole number of cents. -/
def CentsQ (x : ℚ) : Prop := ∃ n : ℤ, x = (n : ℚ) / 100

/-!
Cart state controller (`stores/cartStore.ts`).  The zustand store holds
`{ cart, isLoading, error }` and seven operations, each of which sets
`isLoading = true` and `error = null`, performs its remote work through
`cartApi`, and settles by either installing the returned snapshot (success)
or recording the thrown error message (failure).  Mutating `cartApi` calls
first await `getCSRFToken`, which wraps `generateCSRFToken` from
`src/middleware/security.ts` and throws `Error('Security configuration
error')` when token generation fails; the token is then sent as the
`X-CSRF-Token` header of the `fetch` call.

The embedding makes the remote world explicit as an `Env`: whether token
generation succeeds (and with which token), and what each endpoint's fetch
would yield (`none` models a non-ok response, which the api layer turns
into a thrown `Error` with the operation's message).  Each operation maps a
`CartState` and an `Env` to the settled `CartState` together with the list
of HTTP requests actually issued.
-/

/-- Cart item of a server snapshot (`CartItem` in `src/types`). -/
structure CartItem where
  id : String
  quantity : ℚ
  price : ℚ
  productId : String
  variantId : Option String
deriving DecidableEq

/-- Server-authoritative cart snapshot (`Cart` in `src/types`). -/
structure Cart where
  id : String
  subtotal : ℚ
  tax : ℚ
  shipping : ℚ
  total : ℚ
  discountCode : Option String
  discountAmount : ℚ
  items : List CartItem
deriving DecidableEq

/-- Input shape of `addItem` (`CartItemInput` in `src/types`). -/
structure CartItemInput where
  productId : String
  variantId : Option String
  quantity : ℚ
deriving DecidableEq

/-- The zustand store state: `{ cart, isLoading, error }`. -/
structure CartState where
  cart : Option Cart
  isLoading : Bool
  error : Option String
deriving DecidableEq

/-- The remote endpoints `cartApi` can hit, with their request payloads. -/
inductive Endpoint where
  | getCart : Endpoint
  | addItem (item : CartItemInput) : Endpoint
  | updateItem (itemId : String) (quantity : ℚ) : Endpoint
  | removeItem (itemId : String) : Endpoint
  | clearCart : Endpoint
  | applyDiscount (code : String) : Endpoint
  | removeDiscount : Endpoint
deriving DecidableEq

/-- One issued `fetch`: the endpoint plus the `X-CSRF-Token` header sent
with it (`none` for the unauthenticated `getCart`). -/
structure Request where
  endpoint : Endpoint
  csrfToken : Option String
deriving DecidableEq

/-- All remote behavior an invocation can observe: the outcome of CSRF
token generation and, for each endpoint, the snapshot a successful fetch
returns (`none` models a response with `!response.ok`). -/
structure Env where
  csrfToken : Option String
  getCartR : Option Cart
  addItemR : Option Cart
  updateR : Option Cart
  removeR : Option Cart
  clearOk : Bool
  applyR : Option Cart
  removeDiscountR : Option Cart
deriving DecidableEq

/-- `getCSRFToken` from `stores/cartStore.ts`: returns the generated token
or throws `Error('Security configuration error')`. -/
def getCSRFToken (env : Env) : Except String String :=
  match env.csrfToken with
  | some tok => Except.ok tok
  | none => Except.error "Security configuration error"

namespace cartApi

/-- `cartApi.getCart`: plain fetch, throws the generic message on a non-ok
response. -/
def getCart (env : Env) : Except String Cart × List Request :=
  (match env.getCartR with
    | some c => Except.ok c
    | none => Except.error "Failed to fetch cart",
   [⟨Endpoint.getCart, none⟩])

/-- `cartApi.addItem`: awaits the CSRF token (aborting before any fetch on
failure), then POSTs the item with the token header. -/
def addItem (env : Env) (item : CartItemInput) : Except String Cart × List Request :=
  match getCSRFToken env with
  | Except.error e => (Except.error e, [])
  | Except.ok tok =>
    (match env.addItemR with
      | some c => Except.ok c
      | none => Except.error "Failed to add item to cart",
     [⟨Endpoint.addItem item, some tok⟩])

/-- `cartApi.updateQuantity`: token first, then PUT to the item endpoint. -/
def updateQuantity (env : Env) (itemId : String) (quantity : ℚ) :
    Except String Cart × List Request :=
  match getCSRFToken env with
  | Except.error e => (Except.error e, [])
  | Except.ok tok =>
    (match env.updateR with
      | some c => Except.ok c
      | none => Except.error "Failed to update item quantity",
     [⟨Endpoint.updateItem itemId quantity, some tok⟩])

/-- `cartApi.removeItem`: token first, then DELETE on the item endpoint. -/
def removeItem (env : Env) (itemId : String) : Except String Cart × List Request :=
  match getCSRFToken env with
  | Except.error e => (Except.error e, [])
  | Except.ok tok =>
    (match env.removeR with
      | some c => Except.ok c
      | none => Except.error "Failed to remove item from cart",
     [⟨Endpoint.removeItem itemId, some tok⟩])

/-- `cartApi.clearCart`: token first, then DELETE on the cart endpoint. -/
def clearCart (env : Env) : Except String Unit × List Request :=
  match getCSRFToken env with
  | Except.error e => (Except.error e, [])
  | Except.ok tok =>
    (if env.clearOk then Except.ok () else Except.error "Failed to clear cart",
     [⟨Endpoint.clearCart, some tok⟩])

/-- `cartApi.applyDiscount`: token first, then POST of the code. -/
def applyDiscount (env : Env) (code : String) : Except String Cart × List Request :=
  match getCSRFToken env with
  | Except.error e => (Except.error e, [])
  | Except.ok tok =>
    (match env.applyR with
      | some c => Except.ok c
      | none => Except.error "Failed to apply discount",
     [⟨Endpoint.applyDiscount code, some tok⟩])

/-- `cartApi.removeDiscount`: token first, then DELETE on the discount
endpoint. -/
def removeDiscount (env : Env) : Except String Cart × List Request :=
  match getCSRFToken env with
  | Except.error e => (Except.error e, [])
  | Except.ok tok =>
    (match env.removeDiscountR with
      | some c => Except.ok c
      | none => Except.error "Failed to remove discount",
     [⟨Endpoint.removeDiscount, some tok⟩])

end cartApi

namespace useCartStore

/-- `fetchCart`: set loading/clear error, fetch, then either install the
snapshot or record the message. -/
def fetchCart (s : CartState) (env : Env) : CartState × List Request :=
  match cartApi.getCart env with
  | (Except.ok c, reqs) => (⟨some c, false, none⟩, reqs)
  | (Except.error msg, reqs) => (⟨s.cart, false, some msg⟩, reqs)

/-- `addItem`: no local validation of the input; the remote add is issued
for any quantity. -/
def addItem (item : CartItemInput) (s : CartState) (env : Env) :
    CartState × List Request :=
  match cartApi.addItem env item with
  | (Except.ok c, reqs) => (⟨some c, false, none⟩, reqs)
  | (Except.error msg, reqs) => (⟨s.cart, false, some msg⟩, reqs)

/-- `removeItem`: remote DELETE then settle. -/
def removeItem (itemId : String) (s : CartState) (env : Env) :
    CartState × List Request :=
  match cartApi.removeItem env itemId with
  | (Except.ok c, reqs) => (⟨some c, false, none⟩, reqs)
  | (Except.error msg, reqs) => (⟨s.cart, false, some msg⟩, reqs)

/-- `updateQuantity`: for `quantity ≤ 0` the source awaits
`get().removeItem(itemId)` and returns; otherwise it PUTs the new
quantity.  In the delegating branch the intermediate
`{ isLoading := true, error := null }` write is immediately overwritten by
`removeItem`'s own writes, so the settled state is `removeItem`'s. -/
def updateQuantity (itemId : String) (quantity : ℚ) (s : CartState) (env : Env) :
    CartState × List Request :=
  if quantity ≤ 0 then
    removeItem itemId s env
  else
    match cartApi.updateQuantity env itemId quantity with
    | (Except.ok c, reqs) => (⟨some c, false, none⟩, reqs)
    | (Except.error msg, reqs) => (⟨s.cart, false, some msg⟩, reqs)

/-- `clearCart`: on success the cart becomes `null` rather than a snapshot. -/
def clearCart (s : CartState) (env : Env) : CartState × List Request :=
  match cartApi.clearCart env with
  | (Except.ok _, reqs) => (⟨none, false, none⟩, reqs)
  | (Except.error msg, reqs) => (⟨s.cart, false, some msg⟩, reqs)

/-- `applyDiscount`: remote POST of the code then settle. -/
def applyDiscount (code : String) (s : CartState) (env : Env) :
    CartState × List Request :=
  match cartApi.applyDiscount env code with
  | (Except.ok c, reqs) => (⟨some c, false, none⟩, reqs)
  | (Except.error msg, reqs) => (⟨s.cart, false, some msg⟩, reqs)

/-- `removeDiscount`: remote DELETE then settle. -/
def removeDiscount (s : CartState) (env : Env) : CartState × List Request :=
  match cartApi.removeDiscount env with
  | (Except.ok c, reqs) => (⟨some c, false, none⟩, reqs)
  | (Except.error msg, reqs) => (⟨s.cart, false, some msg⟩, reqs)

end useCartStore

/-- Settled failure shape of §4.2: the cart is exactly the pre-call value,
loading is cleared, and an error message is present. -/
def FailSettled (s : CartState) (out : CartState × List Request) : Prop :=
  out.1.cart = s.cart ∧ out.1.isLoading = false ∧ out.1.error.isSome = true

/-- Concrete snapshot used by witnesses and counterexamples. -/
def sampleCart : Cart :=
  ⟨"cart1", 30, 12/5, 599/100, 3839/100, none, 0, [⟨"ci1", 3, 10, "p1", none⟩]⟩

/-- Concrete pre-call state used by witnesses and counterexamples. -/
def sampleState : CartState := ⟨some sampleCart, false, none⟩

/-- Environment in which every remote call succeeds. -/
def envAllOk : Env :=
  ⟨some "tok", some sampleCart, some sampleCart, some sampleCart, some sampleCart,
   true, some sampleCart, some sampleCart⟩

/-- Environment in which CSRF token generation fails. -/
def envNoCsrf : Env := ⟨none, some sampleCart, some sampleCart, some sampleCart,
  some sampleCart, true, some sampleCart, some sampleCart⟩

/-- Environment in which every fetch returns a non-ok response. -/
def envAllFail : Env := ⟨some "tok", none, none, none, none, false, none, none⟩

lemma jsRound_intCast (m : ℤ) : jsRound (m : ℚ) = m := by
  unfold jsRound
  rw [Int.floor_int_add]
  norm_num

lemma jsRound_int_add (m : ℤ) (x : ℚ) : jsRound ((m : ℚ) + x) = m + jsRound x := by
  unfold jsRound
  rw [add_assoc, Int.floor_int_add]

lemma jsRound_nonneg (x : ℚ) (h : 0 ≤ x) : 0 ≤ jsRound x :=
  Int.floor_nonneg.mpr (by linarith)

lemma toFixed4_intCast (m : ℤ) : toFixed4 (m : ℚ) = m := by
  unfold toFixed4
  have h : (m : ℚ) * 10000 = ((m * 10000 : ℤ) : ℚ) := by push_cast; ring
  rw [h, jsRound_intCast]
  push_cast
  field_simp

lemma toFixed4_nonneg (x : ℚ) (h : 0 ≤ x) : 0 ≤ toFixed4 x := by
  unfold toFixed4
  have := jsRound_nonneg (x * 10000) (by positivity)
  positivity

lemma curInt_ofCents (n : ℤ) : curInt ((n : ℚ) / 100) = n := by
  unfold curInt
  have h : ((n : ℚ) / 100) * 100 = (n : ℚ) := by field_simp
  rw [h, toFixed4_intCast, jsRound_intCast]

lemma curInt_nonneg (v : ℚ) (h : 0 ≤ v) : 0 ≤ curInt v :=
  jsRound_nonneg _ (toFixed4_nonneg _ (by positivity))

lemma curValue_nonneg (v : ℚ) (h : 0 ≤ v) : 0 ≤ curValue v := by
  unfold curValue
  have := curInt_nonneg v h
  positivity

lemma centsQ_curValue (v : ℚ) : CentsQ (curValue v) := ⟨curInt v, rfl⟩

lemma curValue_cents {x : ℚ} (h : CentsQ x) : curValue x = x := by
  obtain ⟨n, rfl⟩ := h
  unfold curValue
  rw [curInt_ofCents]

lemma centsQ_zero : CentsQ 0 := ⟨0, by norm_num⟩

lemma centsQ_add {a b : ℚ} (ha : CentsQ a) (hb : CentsQ b) : CentsQ (a + b) := by
  obtain ⟨m, rfl⟩ := ha
  obtain ⟨n, rfl⟩ := hb
  exact ⟨m + n, by push_cast; ring⟩

lemma centsQ_sub {a b : ℚ} (ha : CentsQ a) (hb : CentsQ b) : CentsQ (a - b) := by
  obtain ⟨m, rfl⟩ := ha
  obtain ⟨n, rfl⟩ := hb
  exact ⟨m - n, by push_cast; ring⟩

lemma centsQ_mul_natCast {a : ℚ} (ha : CentsQ a) (q : ℕ) : CentsQ (a * q) := by
  obtain ⟨m, rfl⟩ := ha
  exact ⟨m * q, by push_cast; ring⟩

lemma centsQ_min {a b : ℚ} (ha : CentsQ a) (hb : CentsQ b) : CentsQ (min a b) := by
  rcases le_total a b with h | h
  · rw [min_eq_left h]; exact ha
  · rw [min_eq_right h]; exact hb

lemma subtotal_foldl_cents (l : List LineItem) (a : ℚ) (ha : CentsQ a)
    (h : ∀ it ∈ l, CentsQ it.price) :
    CentsQ (l.foldl (fun sum it => sum + it.price * (it.quantity : ℚ)) a) := by
  induction l generalizing a with
  | nil => exact ha
  | cons hd tl ih =>
    exact ih _ (centsQ_add ha (centsQ_mul_natCast (h hd (by simp)) hd.quantity))
      (fun it hit => h it (by simp [hit]))

lemma subtotal_foldl_lower (l : List LineItem) (a : ℚ)
    (h : ∀ it ∈ l, 0 ≤ it.price) :
    a ≤ l.foldl (fun sum it => sum + it.price * (it.quantity : ℚ)) a := by
  induction l generalizing a with
  | nil => exact le_refl a
  | cons hd tl ih =>
    have h1 : (0 : ℚ) ≤ hd.price * (hd.quantity : ℚ) :=
      mul_nonneg (h hd (by simp)) (by positivity)
    have h2 := ih (a + hd.price * (hd.quantity : ℚ)) (fun it hit => h it (by simp [hit]))
    calc a ≤ a + hd.price * (hd.quantity : ℚ) := by linarith
      _ ≤ _ := h2

lemma subtotalRaw_nonneg (items : List LineItem)
    (h : ∀ it ∈ items, 0 ≤ it.price) : 0 ≤ subtotalRaw items :=
  subtotal_foldl_lower items 0 h

lemma subtotalRaw_cents (items : List LineItem)
    (h : ∀ it ∈ items, CentsQ it.price) : CentsQ (subtotalRaw items) :=
  subtotal_foldl_cents items 0 centsQ_zero h

lemma centsQ_calculateTax (s r : ℚ) : CentsQ (calculateTax s r) :=
  centsQ_curValue _

lemma calculateTax_nonneg (s r : ℚ) (hs : 0 ≤ s) (hr : 0 ≤ r) :
    0 ≤ calculateTax s r := by
  unfold calculateTax
  have hi := curInt_nonneg s hs
  apply curValue_nonneg
  have : (0 : ℚ) ≤ (curInt s : ℚ) := by exact_mod_cast hi
  positivity

lemma calculateShipping_zero_threshold (s r : ℚ) : calculateShipping s r 0 = r := by
  simp [calculateShipping]

/-- Claim C1: for every list of line items with non-negative unit price and
positive integer quantity, and non-negative tax rate, shipping rate, and
discount amount (including a discount larger than the subtotal), the total
returned by `calculateOrderTotals` is non-negative. -/
theorem calculateOrderTotals_total_nonneg (items : List LineItem)
    (taxRate shippingRate discountAmount : ℚ)
    (hitems : ∀ it ∈ items, 0 ≤ it.price ∧ 0 < it.quantity)
    (htr : 0 ≤ taxRate) (hsr : 0 ≤ shippingRate) (hd : 0 ≤ discountAmount) :
    0 ≤ (calculateOrderTotals items taxRate shippingRate discountAmount).total := by
  have hS : 0 ≤ subtotalRaw items :=
    subtotalRaw_nonneg items (fun it hit => (hitems it hit).1)
  have hT : 0 ≤ calculateTax (subtotalRaw items) taxRate :=
    calculateTax_nonneg _ _ hS htr
  have hmin : min discountAmount (subtotalRaw items) ≤ subtotalRaw items :=
    min_le_right _ _
  show 0 ≤ curValue _
  apply curValue_nonneg
  rw [calculateShipping_zero_threshold]
  linarith

/-- Witness for C1 at the spec scenario with an oversized discount. -/
theorem calculateOrderTotals_total_nonneg_witness :
    0 ≤ (calculateOrderTotals [⟨10, 3⟩] (2/25) (599/100) 50).total :=
  calculateOrderTotals_total_nonneg [⟨10, 3⟩] (2/25) (599/100) 50
    (fun it hit => by
      rw [List.mem_singleton] at hit
      subst hit
      exact ⟨by norm_num, by norm_num⟩)
    (by norm_num) (by norm_num) (by norm_num)

/-- Claim C2 evaluation: `calculateOrderTotals` never forwards a free
shipping threshold — its `calculateShipping` call passes only the subtotal
and the rate, so the threshold parameter takes its default `0`.  On the
spec scenario (items `[{price: 10.00, quantity: 3}]`, taxRate `0.08`,
shippingRate `5.99`, discount `0`, configured threshold `25.00`) it
therefore returns shipping `5.99` and total `38.39`, while
`calculateShipping` itself, given the threshold, returns `0` as the spec
describes. -/
theorem calculateOrderTotals_drops_freeShippingThreshold :
    (calculateOrderTotals [⟨10, 3⟩] (2/25) (599/100) 0).shipping = 599/100 ∧
    (calculateOrderTotals [⟨10, 3⟩] (2/25) (599/100) 0).total = 3839/100 ∧
    calculateShipping 30 (599/100) 25 = 0 := by
  refine ⟨?_, ?_, ?_⟩ <;>
    norm_num [calculateOrderTotals, calculateTax, calculateShipping, subtotalRaw,
      curValue, curInt, toFixed4, jsRound]

/-- Counterexample to claim C6: on items `[{price: 0.005, quantity: 1}]`
with tax rate `0.5`, the tax returned by `calculateOrderTotals` is `0.01`,
whereas rounding the exact product `subtotal × taxRate = 0.0025` only once
yields `0.00`. -/
theorem tax_rounding_counterexample :
    (calculateOrderTotals [⟨1/200, 1⟩] (1/2) 0 0).tax
      ≠ specTaxRoundedOnce [⟨1/200, 1⟩] (1/2) := by
  norm_num [calculateOrderTotals, calculateTax, specTaxRoundedOnce, subtotalRaw,
    curValue, curInt, toFixed4, jsRound]

/-- Claim C6 as amended: the tax returned by `calculateOrderTotals` is the
subtotal first rounded to 2 decimal places, then multiplied by the tax rate
and rounded to 2 decimal places again — `calculateTax` rounds at an
intermediate step (its `currency(subtotal)` parse), not only once at the
point of producing the final totals. -/
theorem calculateOrderTotals_tax_double_rounded (items : List LineItem)
    (taxRate shippingRate discountAmount : ℚ) :
    (calculateOrderTotals items taxRate shippingRate discountAmount).tax
      = curValue (curValue (subtotalRaw items) * taxRate) := by
  have h1 : (calculateOrderTotals items taxRate shippingRate discountAmount).tax
      = curValue (calculateTax (subtotalRaw items) taxRate) := rfl
  rw [h1, curValue_cents (centsQ_calculateTax _ _)]
  have h2 : curValue (subtotalRaw items) * taxRate
      = (curInt (subtotalRaw items) : ℚ) * taxRate / 100 := by
    unfold curValue
    ring
  rw [h2]
  rfl

/-- Claim C7: `calculateShipping` is `0` exactly on the free-shipping
branch — strictly positive threshold met by the subtotal, the boundary
`subtotal = threshold` included — and the shipping rate otherwise,
including when the threshold is zero (the default of the omitted
argument). -/
theorem calculateShipping_characterization (s r t : ℚ) :
    calculateShipping s r t = (if 0 < t ∧ t ≤ s then 0 else r) ∧
    calculateShipping s r 0 = r ∧
    calculateShipping t r t = (if 0 < t then 0 else r) := by
  refine ⟨rfl, calculateShipping_zero_threshold s r, ?_⟩
  by_cases h : 0 < t
  · simp [calculateShipping, h]
  · simp [calculateShipping, h]

/-- Counterexample to claim C8: at subtotal `30.00` and requested discount
`0.005`, the returned discount is `currency(0.005).value = 0.01`, not
`min(0.005, 30) = 0.005` — the final rounding to currency precision breaks
the unrestricted equality. -/
theorem discount_min_counterexample :
    (calculateOrderTotals [⟨10, 3⟩] 0 0 (1/200)).discount
      ≠ min (1/200) (subtotalRaw [⟨10, 3⟩]) := by
  norm_num [calculateOrderTotals, subtotalRaw, curValue, curInt, toFixed4, jsRound]

/-- Claim C8 as amended: for every non-negative requested discount the
returned discount is `min(discountAmount, subtotal)` rounded to 2 decimal
places; when the discount and the item prices are whole numbers of cents
the rounding is the identity, so the returned discount is exactly
`min(discountAmount, subtotal)`; in particular at subtotal `30.00` and
requested discount `50.00` the discount is clamped to `30.00` and the
total is `30.00 + tax + shipping − 30.00`. -/
theorem calculateOrderTotals_discount_min (items : List LineItem)
    (taxRate shippingRate discountAmount : ℚ)
    (hd0 : 0 ≤ discountAmount) :
    (calculateOrderTotals items taxRate shippingRate discountAmount).discount
      = curValue (min discountAmount (subtotalRaw items)) ∧
    (CentsQ discountAmount → (∀ it ∈ items, CentsQ it.price) →
      (calculateOrderTotals items taxRate shippingRate discountAmount).discount
        = min discountAmount (subtotalRaw items)) ∧
    (calculateOrderTotals [⟨10, 3⟩] (2/25) (599/100) 50).discount = 30 ∧
    (calculateOrderTotals [⟨10, 3⟩] (2/25) (599/100) 50).total
      = 30 + (calculateOrderTotals [⟨10, 3⟩] (2/25) (599/100) 50).tax
        + (calculateOrderTotals [⟨10, 3⟩] (2/25) (599/100) 50).shipping - 30 := by
  refine ⟨rfl, ?_, ?_, ?_⟩
  · intro hdc hitems
    have h : (calculateOrderTotals items taxRate shippingRate discountAmount).discount
        = curValue (min discountAmount (subtotalRaw items)) := rfl
    rw [h, curValue_cents (centsQ_min hdc (subtotalRaw_cents items hitems))]
  · norm_num [calculateOrderTotals, subtotalRaw, curValue, curInt, toFixed4, jsRound]
  · norm_num [calculateOrderTotals, calculateTax, calculateShipping, subtotalRaw,
      curValue, curInt, toFixed4, jsRound]

/-- Witness for C8's amended statement at the spec scenario. -/
theorem calculateOrderTotals_discount_min_witness :
    (calculateOrderTotals [⟨10, 3⟩] (2/25) (599/100) 50).discount
      = min 50 (subtotalRaw [⟨10, 3⟩]) :=
  (calculateOrderTotals_discount_min [⟨10, 3⟩] (2/25) (599/100) 50
    (by norm_num)).2.1 ⟨5000, by norm_num⟩
    (fun it hit => by
      rw [List.mem_singleton] at hit
      subst hit
      exact ⟨1000, by norm_num⟩)

/-- Counterexample to claim C10: at discount `−0.004` against subtotal
`30.00` (zero tax and shipping), the final 2-decimal rounding absorbs the
sub-cent amount: the returned discount is `0`, not `−0.004`
(`Math.round(−0.4) = −0`), the returned total is `30.00`, not
`30.004`, and the total is not strictly greater than
`subtotal + tax + shipping`. -/
theorem negative_discount_counterexample :
    (calculateOrderTotals [⟨10, 3⟩] 0 0 (-1/250)).discount ≠ -1/250 ∧
    (calculateOrderTotals [⟨10, 3⟩] 0 0 (-1/250)).total
      ≠ (calculateOrderTotals [⟨10, 3⟩] 0 0 (-1/250)).subtotal
        + (calculateOrderTotals [⟨10, 3⟩] 0 0 (-1/250)).tax
        + (calculateOrderTotals [⟨10, 3⟩] 0 0 (-1/250)).shipping
        - (-1/250) ∧
    ¬((calculateOrderTotals [⟨10, 3⟩] 0 0 (-1/250)).subtotal
        + (calculateOrderTotals [⟨10, 3⟩] 0 0 (-1/250)).tax
        + (calculateOrderTotals [⟨10, 3⟩] 0 0 (-1/250)).shipping
      < (calculateOrderTotals [⟨10, 3⟩] 0 0 (-1/250)).total) := by
  refine ⟨?_, ?_, ?_⟩ <;>
    norm_num [calculateOrderTotals, calculateTax, calculateShipping, subtotalRaw,
      curValue, curInt, toFixed4, jsRound]

/-- Claim C10 as amended: for a strictly negative discount amount that is a
whole number of cents (with non-negative cent-valued prices and a
cent-valued shipping rate), no clamping at zero occurs: `Math.min` keeps
the negative amount, so the returned discount is that amount itself and the
returned total is `subtotal + tax + shipping − discountAmount`, strictly
greater than `subtotal + tax + shipping`; sub-cent negative amounts can
instead be absorbed by the final 2-decimal rounding. -/
theorem calculateOrderTotals_negative_discount (items : List LineItem)
    (taxRate shippingRate discountAmount : ℚ)
    (hd : discountAmount < 0) (hdc : CentsQ discountAmount)
    (hitems : ∀ it ∈ items, 0 ≤ it.price ∧ CentsQ it.price)
    (hsrc : CentsQ shippingRate) :
    (calculateOrderTotals items taxRate shippingRate discountAmount).discount
      = discountAmount ∧
    (calculateOrderTotals items taxRate shippingRate discountAmount).total
      = (calculateOrderTotals items taxRate shippingRate discountAmount).subtotal
        + (calculateOrderTotals items taxRate shippingRate discountAmount).tax
        + (calculateOrderTotals items taxRate shippingRate discountAmount).shipping
        - discountAmount ∧
    (calculateOrderTotals items taxRate shippingRate discountAmount).subtotal
        + (calculateOrderTotals items taxRate shippingRate discountAmount).tax
        + (calculateOrderTotals items taxRate shippingRate discountAmount).shipping
      < (calculateOrderTotals items taxRate shippingRate discountAmount).total := by
  have hS : 0 ≤ subtotalRaw items :=
    subtotalRaw_nonneg items (fun it hit => (hitems it hit).1)
  have hSc : CentsQ (subtotalRaw items) :=
    subtotalRaw_cents items (fun it hit => (hitems it hit).2)
  have hmin : min discountAmount (subtotalRaw items) = discountAmount :=
    min_eq_left (le_trans hd.le hS)
  have hdisc : (calculateOrderTotals items taxRate shippingRate discountAmount).discount
      = discountAmount := by
    show curValue _ = _
    rw [hmin, curValue_cents hdc]
  have hsub : (calculateOrderTotals items taxRate shippingRate discountAmount).subtotal
      = subtotalRaw items := curValue_cents hSc
  have htax : (calculateOrderTotals items taxRate shippingRate discountAmount).tax
      = calculateTax (subtotalRaw items) taxRate :=
    curValue_cents (centsQ_calculateTax _ _)
  have hship : (calculateOrderTotals items taxRate shippingRate discountAmount).shipping
      = shippingRate := by
    show curValue _ = _
    rw [calculateShipping_zero_threshold, curValue_cents hsrc]
  have htot : (calculateOrderTotals items taxRate shippingRate discountAmount).total
      = subtotalRaw items + calculateTax (subtotalRaw items) taxRate
        + shippingRate - discountAmount := by
    show curValue _ = _
    rw [calculateShipping_zero_threshold, hmin,
      curValue_cents (centsQ_sub (centsQ_add (centsQ_add hSc (centsQ_calculateTax _ _)) hsrc) hdc)]
  refine ⟨hdisc, ?_, ?_⟩
  · rw [htot, hsub, htax, hship]
  · rw [htot, hsub, htax, hship]
    linarith

/-- Witness for C10 at discount `−5.00`. -/
theorem calculateOrderTotals_negative_discount_witness :
    (calculateOrderTotals [⟨10, 3⟩] (2/25) (599/100) (-5)).discount = -5 :=
  (calculateOrderTotals_negative_discount [⟨10, 3⟩] (2/25) (599/100) (-5)
    (by norm_num) ⟨-500, by norm_num⟩
    (fun it hit => by
      rw [List.mem_singleton] at hit
      subst hit
      exact ⟨by norm_num, 1000, by norm_num⟩)
    ⟨599, by norm_num⟩).1

lemma fetchCart_fail (s : CartState) (env : Env) (h : env.getCartR = none) :
    FailSettled s (useCartStore.fetchCart s env) := by
  simp [useCartStore.fetchCart, cartApi.getCart, FailSettled, h]

lemma addItem_fail (s : CartState) (env : Env) (item : CartItemInput)
    (h : env.csrfToken = none ∨ env.addItemR = none) :
    FailSettled s (useCartStore.addItem item s env) := by
  rcases h with h | h
  · simp [useCartStore.addItem, cartApi.addItem, getCSRFToken, FailSettled, h]
  · cases htok : env.csrfToken <;>
      simp [useCartStore.addItem, cartApi.addItem, getCSRFToken, FailSettled, h, htok]

lemma removeItem_fail (s : CartState) (env : Env) (itemId : String)
    (h : env.csrfToken = none ∨ env.removeR = none) :
    FailSettled s (useCartStore.removeItem itemId s env) := by
  rcases h with h | h
  · simp [useCartStore.removeItem, cartApi.removeItem, getCSRFToken, FailSettled, h]
  · cases htok : env.csrfToken <;>
      simp [useCartStore.removeItem, cartApi.removeItem, getCSRFToken, FailSettled, h, htok]

lemma updateQuantity_fail (s : CartState) (env : Env) (itemId : String) (quantity : ℚ)
    (h : env.csrfToken = none ∨ (quantity ≤ 0 ∧ env.removeR = none)
      ∨ (0 < quantity ∧ env.updateR = none)) :
    FailSettled s (useCartStore.updateQuantity itemId quantity s env) := by
  rcases h with h | ⟨hq, hr⟩ | ⟨hq, hr⟩
  · by_cases hq : quantity ≤ 0
    · unfold useCartStore.updateQuantity
      rw [if_pos hq]
      exact removeItem_fail s env itemId (Or.inl h)
    · unfold useCartStore.updateQuantity
      rw [if_neg hq]
      simp [cartApi.updateQuantity, getCSRFToken, FailSettled, h]
  · unfold useCartStore.updateQuantity
    rw [if_pos hq]
    exact removeItem_fail s env itemId (Or.inr hr)
  · unfold useCartStore.updateQuantity
    rw [if_neg (not_le.mpr hq)]
    cases htok : env.csrfToken <;>
      simp [cartApi.updateQuantity, getCSRFToken, FailSettled, hr, htok]

lemma clearCart_fail (s : CartState) (env : Env)
    (h : env.csrfToken = none ∨ env.clearOk = false) :
    FailSettled s (useCartStore.clearCart s env) := by
  rcases h with h | h
  · simp [useCartStore.clearCart, cartApi.clearCart, getCSRFToken, FailSettled, h]
  · cases htok : env.csrfToken <;>
      simp [useCartStore.clearCart, cartApi.clearCart, getCSRFToken, FailSettled, h, htok]

lemma applyDiscount_fail (s : CartState) (env : Env) (code : String)
    (h : env.csrfToken = none ∨ env.applyR = none) :
    FailSettled s (useCartStore.applyDiscount code s env) := by
  rcases h with h | h
  · simp [useCartStore.applyDiscount, cartApi.applyDiscount, getCSRFToken, FailSettled, h]
  · cases htok : env.csrfToken <;>
      simp [useCartStore.applyDiscount, cartApi.applyDiscount, getCSRFToken, FailSettled, h, htok]

lemma removeDiscount_fail (s : CartState) (env : Env)
    (h : env.csrfToken = none ∨ env.removeDiscountR = none) :
    FailSettled s (useCartStore.removeDiscount s env) := by
  rcases h with h | h
  · simp [useCartStore.removeDiscount, cartApi.removeDiscount, getCSRFToken, FailSettled, h]
  · cases htok : env.csrfToken <;>
      simp [useCartStore.removeDiscount, cartApi.removeDiscount, getCSRFToken, FailSettled,
        h, htok]

/-- Claim C4: for every cart store operation, if the invocation fails
(token generation failure or a non-ok response on the remote call the
operation actually makes) then at settlement the cart is exactly the
pre-call value, `isLoading` is false, and `error` carries a message. -/
theorem cart_ops_fail_preserve_cart (s : CartState) (env : Env)
    (item : CartItemInput) (itemId : String) (quantity : ℚ) (code : String) :
    (env.getCartR = none → FailSettled s (useCartStore.fetchCart s env)) ∧
    (env.csrfToken = none ∨ env.addItemR = none →
      FailSettled s (useCartStore.addItem item s env)) ∧
    (env.csrfToken = none ∨ (quantity ≤ 0 ∧ env.removeR = none)
        ∨ (0 < quantity ∧ env.updateR = none) →
      FailSettled s (useCartStore.updateQuantity itemId quantity s env)) ∧
    (env.csrfToken = none ∨ env.removeR = none →
      FailSettled s (useCartStore.removeItem itemId s env)) ∧
    (env.csrfToken = none ∨ env.clearOk = false →
      FailSettled s (useCartStore.clearCart s env)) ∧
    (env.csrfToken = none ∨ env.applyR = none →
      FailSettled s (useCartStore.applyDiscount code s env)) ∧
    (env.csrfToken = none ∨ env.removeDiscountR = none →
      FailSettled s (useCartStore.removeDiscount s env)) :=
  ⟨fetchCart_fail s env, addItem_fail s env item,
   updateQuantity_fail s env itemId quantity, removeItem_fail s env itemId,
   clearCart_fail s env, applyDiscount_fail s env code, removeDiscount_fail s env⟩

/-- Witness for C4: a failed fetch against the sample state. -/
theorem cart_ops_fail_preserve_cart_witness :
    FailSettled sampleState (useCartStore.fetchCart sampleState envAllFail) :=
  (cart_ops_fail_preserve_cart sampleState envAllFail ⟨"p1", none, 1⟩ "ci1" 2 "SAVE").1 rfl

/-- Claim C5: `updateQuantity` with non-positive quantity settles in
exactly the state `removeItem` would produce, issues exactly the requests
`removeItem` would issue, and never hits the update endpoint. -/
theorem updateQuantity_nonpositive_delegates (s : CartState) (env : Env)
    (itemId : String) (quantity : ℚ) (hq : quantity ≤ 0) :
    useCartStore.updateQuantity itemId quantity s env
      = useCartStore.removeItem itemId s env ∧
    ∀ req ∈ (useCartStore.updateQuantity itemId quantity s env).2,
      ∀ i q, req.endpoint ≠ Endpoint.updateItem i q := by
  have heq : useCartStore.updateQuantity itemId quantity s env
      = useCartStore.removeItem itemId s env := by
    unfold useCartStore.updateQuantity
    rw [if_pos hq]
  refine ⟨heq, ?_⟩
  rw [heq]
  unfold useCartStore.removeItem cartApi.removeItem getCSRFToken
  cases env.csrfToken with
  | none => cases env.removeR <;> simp
  | some tok => cases env.removeR <;> simp

/-- Witness for C5: quantity `0` against the sample state in a failing
environment. -/
theorem updateQuantity_nonpositive_delegates_witness :
    useCartStore.updateQuantity "ci1" 0 sampleState envAllFail
      = useCartStore.removeItem "ci1" sampleState envAllFail :=
  (updateQuantity_nonpositive_delegates sampleState envAllFail "ci1" 0 (by norm_num)).1

/-- Counterexample to claim C3: `addItem` with quantity `0` is not rejected
locally — against a succeeding environment the store issues the remote add
request (the request list is non-empty), sets no validation error, and
replaces the cart with the returned snapshot. -/
theorem addItem_zero_quantity_counterexample :
    (useCartStore.addItem ⟨"p1", none, 0⟩ sampleState envAllOk).2 ≠ [] ∧
    (useCartStore.addItem ⟨"p1", none, 0⟩ sampleState envAllOk).1.error = none ∧
    (useCartStore.addItem ⟨"p1", none, 0⟩ sampleState envAllOk).1.cart
      = some sampleCart := by
  refine ⟨?_, rfl, rfl⟩
  intro h
  simp [useCartStore.addItem, cartApi.addItem, getCSRFToken, envAllOk] at h

/-- Claim C3 as amended: `addItem` performs no local validation of the
quantity; with quantity `0` it behaves exactly as the generic add path —
when token generation succeeds it issues the remote add request carrying
the item, and settles with the snapshot on success or the generic message
on a failed response. -/
theorem addItem_zero_quantity_not_validated (s : CartState) (env : Env)
    (item : CartItemInput) (tok : String) (c : Cart)
    (hq : item.quantity = 0) (htok : env.csrfToken = some tok) :
    (useCartStore.addItem item s env).2 = [⟨Endpoint.addItem item, some tok⟩] ∧
    (env.addItemR = some c →
      (useCartStore.addItem item s env).1 = ⟨some c, false, none⟩) ∧
    (env.addItemR = none →
      (useCartStore.addItem item s env).1
        = ⟨s.cart, false, some "Failed to add item to cart"⟩) := by
  refine ⟨?_, ?_, ?_⟩
  · cases h : env.addItemR <;>
      simp [useCartStore.addItem, cartApi.addItem, getCSRFToken, htok, h]
  · intro hc
    simp [useCartStore.addItem, cartApi.addItem, getCSRFToken, htok, hc]
  · intro hc
    simp [useCartStore.addItem, cartApi.addItem, getCSRFToken, htok, hc]

/-- Witness for C3's amended statement: quantity `0` against the succeeding
environment issues the remote add request. -/
theorem addItem_zero_quantity_not_validated_witness :
    (useCartStore.addItem ⟨"p1", none, 0⟩ sampleState envAllOk).2
      = [⟨Endpoint.addItem ⟨"p1", none, 0⟩, some "tok"⟩] :=
  (addItem_zero_quantity_not_validated sampleState envAllOk ⟨"p1", none, 0⟩ "tok"
    sampleCart rfl rfl).1

lemma addItem_token (s : CartState) (env : Env) (item : CartItemInput) (tok : String)
    (h : env.csrfToken = some tok) :
    ∀ req ∈ (useCartStore.addItem item s env).2, req.csrfToken = some tok := by
  cases hr : env.addItemR <;>
    simp [useCartStore.addItem, cartApi.addItem, getCSRFToken, h, hr]

lemma removeItem_token (s : CartState) (env : Env) (itemId : String) (tok : String)
    (h : env.csrfToken = some tok) :
    ∀ req ∈ (useCartStore.removeItem itemId s env).2, req.csrfToken = some tok := by
  cases hr : env.removeR <;>
    simp [useCartStore.removeItem, cartApi.removeItem, getCSRFToken, h, hr]

lemma updateQuantity_token (s : CartState) (env : Env) (itemId : String)
    (quantity : ℚ) (tok : String) (h : env.csrfToken = some tok) :
    ∀ req ∈ (useCartStore.updateQuantity itemId quantity s env).2,
      req.csrfToken = some tok := by
  by_cases hq : quantity ≤ 0
  · unfold useCartStore.updateQuantity
    rw [if_pos hq]
    exact removeItem_token s env itemId tok h
  · unfold useCartStore.updateQuantity
    rw [if_neg hq]
    cases hr : env.updateR <;>
      simp [cartApi.updateQuantity, getCSRFToken, h, hr]

lemma clearCart_token (s : CartState) (env : Env) (tok : String)
    (h : env.csrfToken = some tok) :
    ∀ req ∈ (useCartStore.clearCart s env).2, req.csrfToken = some tok := by
  cases hr : env.clearOk <;>
    simp [useCartStore.clearCart, cartApi.clearCart, getCSRFToken, h, hr]

lemma applyDiscount_token (s : CartState) (env : Env) (code : String) (tok : String)
    (h : env.csrfToken = some tok) :
    ∀ req ∈ (useCartStore.applyDiscount code s env).2, req.csrfToken = some tok := by
  cases hr : env.applyR <;>
    simp [useCartStore.applyDiscount, cartApi.applyDiscount, getCSRFToken, h, hr]

lemma removeDiscount_token (s : CartState) (env : Env) (tok : String)
    (h : env.csrfToken = some tok) :
    ∀ req ∈ (useCartStore.removeDiscount s env).2, req.csrfToken = some tok := by
  cases hr : env.removeDiscountR <;>
    simp [useCartStore.removeDiscount, cartApi.removeDiscount, getCSRFToken, h, hr]

lemma addItem_csrf_none (s : CartState) (env : Env) (item : CartItemInput)
    (h : env.csrfToken = none) :
    useCartStore.addItem item s env
      = (⟨s.cart, false, some "Security configuration error"⟩, []) := by
  simp [useCartStore.addItem, cartApi.addItem, getCSRFToken, h]

lemma removeItem_csrf_none (s : CartState) (env : Env) (itemId : String)
    (h : env.csrfToken = none) :
    useCartStore.removeItem itemId s env
      = (⟨s.cart, false, some "Security configuration error"⟩, []) := by
  simp [useCartStore.removeItem, cartApi.removeItem, getCSRFToken, h]

lemma updateQuantity_csrf_none (s : CartState) (env : Env) (itemId : String)
    (quantity : ℚ) (h : env.csrfToken = none) :
    useCartStore.updateQuantity itemId quantity s env
      = (⟨s.cart, false, some "Security configuration error"⟩, []) := by
  by_cases hq : quantity ≤ 0
  · unfold useCartStore.updateQuantity
    rw [if_pos hq]
    exact removeItem_csrf_none s env itemId h
  · unfold useCartStore.updateQuantity
    rw [if_neg hq]
    simp [cartApi.updateQuantity, getCSRFToken, h]

lemma clearCart_csrf_none (s : CartState) (env : Env) (h : env.csrfToken = none) :
    useCartStore.clearCart s env
      = (⟨s.cart, false, some "Security configuration error"⟩, []) := by
  simp [useCartStore.clearCart, cartApi.clearCart, getCSRFToken, h]

lemma applyDiscount_csrf_none (s : CartState) (env : Env) (code : String)
    (h : env.csrfToken = none) :
    useCartStore.applyDiscount code s env
      = (⟨s.cart, false, some "Security configuration error"⟩, []) := by
  simp [useCartStore.applyDiscount, cartApi.applyDiscount, getCSRFToken, h]

lemma removeDiscount_csrf_none (s : CartState) (env : Env) (h : env.csrfToken = none) :
    useCartStore.removeDiscount s env
      = (⟨s.cart, false, some "Security configuration error"⟩, []) := by
  simp [useCartStore.removeDiscount, cartApi.removeDiscount, getCSRFToken, h]

/-- Claim C9: every mutating operation attaches the freshly generated
anti-forgery token to each request it issues; when token generation fails
the operation issues no request at all and settles with an unchanged cart,
`isLoading` false, and the security-configuration message, which differs
from every operation's generic remote-failure message. -/
theorem mutating_ops_csrf (s : CartState) (env : Env) (tok : String)
    (item : CartItemInput) (itemId : String) (quantity : ℚ) (code : String) :
    (env.csrfToken = some tok →
      (∀ req ∈ (useCartStore.addItem item s env).2, req.csrfToken = some tok) ∧
      (∀ req ∈ (useCartStore.updateQuantity itemId quantity s env).2,
        req.csrfToken = some tok) ∧
      (∀ req ∈ (useCartStore.removeItem itemId s env).2, req.csrfToken = some tok) ∧
      (∀ req ∈ (useCartStore.clearCart s env).2, req.csrfToken = some tok) ∧
      (∀ req ∈ (useCartStore.applyDiscount code s env).2, req.csrfToken = some tok) ∧
      (∀ req ∈ (useCartStore.removeDiscount s env).2, req.csrfToken = some tok)) ∧
    (env.csrfToken = none →
      useCartStore.addItem item s env
        = (⟨s.cart, false, some "Security configuration error"⟩, []) ∧
      useCartStore.updateQuantity itemId quantity s env
        = (⟨s.cart, false, some "Security configuration error"⟩, []) ∧
      useCartStore.removeItem itemId s env
        = (⟨s.cart, false, some "Security configuration error"⟩, []) ∧
      useCartStore.clearCart s env
        = (⟨s.cart, false, some "Security configuration error"⟩, []) ∧
      useCartStore.applyDiscount code s env
        = (⟨s.cart, false, some "Security configuration error"⟩, []) ∧
      useCartStore.removeDiscount s env
        = (⟨s.cart, false, some "Security configuration error"⟩, [])) ∧
    ("Security configuration error" ≠ "Failed to add item to cart" ∧
      "Security configuration error" ≠ "Failed to update item quantity" ∧
      "Security configuration error" ≠ "Failed to remove item from cart" ∧
      "Security configuration error" ≠ "Failed to clear cart" ∧
      "Security configuration error" ≠ "Failed to apply discount" ∧
      "Security configuration error" ≠ "Failed to remove discount") := by
  refine ⟨fun h => ⟨addItem_token s env item tok h,
      updateQuantity_token s env itemId quantity tok h,
      removeItem_token s env itemId tok h, clearCart_token s env tok h,
      applyDiscount_token s env code tok h, removeDiscount_token s env tok h⟩,
    fun h => ⟨addItem_csrf_none s env item h,
      updateQuantity_csrf_none s env itemId quantity h,
      removeItem_csrf_none s env itemId h, clearCart_csrf_none s env h,
      applyDiscount_csrf_none s env code h, removeDiscount_csrf_none s env h⟩,
    ?_⟩
  refine ⟨?_, ?_, ?_, ?_, ?_, ?_⟩ <;> decide

/-- Witness for C9: token generation failure aborts `addItem` before any
request against the sample state. -/
theorem mutating_ops_csrf_witness :
    useCartStore.addItem ⟨"p1", none, 1⟩ sampleState envNoCsrf
      = (⟨sampleState.cart, false, some "Security configuration error"⟩, []) :=
  ((mutating_ops_csrf sampleState envNoCsrf "tok" ⟨"p1", none, 1⟩ "ci1" 2 "SAVE").2.1
    rfl).1

end Shop

